import Mathlib

/-!
Shallow embedding of the adherence-report engine of the pill-pal repository.

The embedded code:
* `src/supabase/functions/generate-report/index.ts` — the user-facing
  report generator (statistics at lines 82–130, narrative/AI stage at
  lines 133–206).
* The doctor-access report generator (the edge function stored alongside
  the migration file `20260123104250_d190a3bb.sql`, statistics at lines
  249–265), whose
  `trackableMedications` filter restricts totals to
  `medication_type === 'prescription'`.

Timestamps are modelled as milliseconds since the epoch (`Int`), matching
`Date.getTime()`.  JavaScript `Math.round` on the non-negative ratios that
occur here is round-half-up, modelled exactly on naturals.  `Math.ceil` of
an integer division is modelled on `Int`.
-/

namespace PillPal

/-- Milliseconds per day: `1000 * 60 * 60 * 24`. -/
def msPerDay : Int := 86400000

/-- `Math.ceil (num / den)` for an integer `num` and positive integer `den`,
computed on integers. -/
def jsCeilDiv (num den : Int) : Int := -((-num).ediv den)

/-- JavaScript `Math.round ((taken / expected) * 100)` for `taken ≥ 0`,
`expected > 0`: round-half-up of `taken*100/expected`, i.e.
`⌊(taken*100)/expected + 1/2⌋`, computed on naturals. -/
def jsRoundPct (taken expected : Nat) : Nat :=
  (2 * (taken * 100) + expected) / (2 * expected)

/-- A row of the `medications` table, with the columns the two report
generators read (`time_of_day TEXT[]`, `medication_type`,
`start_date`/`end_date` as nullable timestamps). -/
structure Medication where
  id : String
  name : String
  dosage : String
  frequency : String
  time_of_day : List String
  medication_type : String
  start_date : Option Int
  end_date : Option Int
  deriving Repr, DecidableEq

/-- A row of the `medication_logs` table, with the columns the report
generators read. -/
structure MedicationLog where
  id : String
  medication_id : String
  taken_at : Int
  scheduled_time : String
  status : String
  deriving Repr, DecidableEq

/-- `med.time_of_day?.length || 1`: slot count with `0` (empty array)
falling back to `1`. -/
def slotCount (m : Medication) : Nat :=
  if m.time_of_day.length = 0 then 1 else m.time_of_day.length

/-- The log fetch filter of both generators:
`.gte('taken_at', startDate).lte('taken_at', endDate)`. -/
def logsInWindow (logs : List MedicationLog) (startMs endMs : Int) :
    List MedicationLog :=
  logs.filter (fun l => decide (startMs ≤ l.taken_at) && decide (l.taken_at ≤ endMs))

/-- `Math.ceil((end - start) / (1000*60*60*24)) + 1`
(generate-report line 83, doctor report line 250). -/
def periodDaysOf (startMs endMs : Int) : Int :=
  jsCeilDiv (endMs - startMs) msPerDay + 1

/-- `expectedDoses`: `medications.forEach(med => expectedDoses += (med.time_of_day?.length || 1) * periodDays)`
(generate-report lines 86–89; the doctor report runs the same loop over
`trackableMedications`). -/
def expectedDosesOf (meds : List Medication) (periodDays : Int) : Int :=
  meds.foldl (fun acc m => acc + (slotCount m : Int) * periodDays) 0

/-- `logs.filter(log => log.status === 'taken').length` (generate-report line 91). -/
def takenCount (logs : List MedicationLog) : Nat :=
  (logs.filter (fun l => l.status == "taken")).length

/-- `logsByMedication[med.id] || []` (generate-report lines 95–101, 105). -/
def medLogs (logs : List MedicationLog) (medId : String) : List MedicationLog :=
  logs.filter (fun l => l.medication_id == medId)

/-- `expected > 0 ? Math.round((taken / expected) * 100) : 0`
(generate-report lines 92 and 114, doctor report line 264). -/
def adherenceRateOf (taken : Nat) (expected : Int) : Nat :=
  if 0 < expected then jsRoundPct taken expected.toNat else 0

/-- One entry of `medicationStats` (generate-report lines 108–115). -/
structure MedicationStat where
  name : String
  dosage : String
  frequency : String
  expected : Int
  taken : Nat
  adherence : Nat
  deriving Repr, DecidableEq

/-- `medicationStats` (generate-report lines 104–116): one stat per
medication, `expected = (slots || 1) * periodDays`,
`taken = #taken logs of that medication`, adherence by the rounded formula. -/
def medicationStats (meds : List Medication) (logs : List MedicationLog)
    (periodDays : Int) : List MedicationStat :=
  meds.map (fun m =>
    { name := m.name
      dosage := m.dosage
      frequency := m.frequency
      expected := (slotCount m : Int) * periodDays
      taken := takenCount (medLogs logs m.id)
      adherence := adherenceRateOf (takenCount (medLogs logs m.id))
        ((slotCount m : Int) * periodDays) })

/-- The `dataSummary` object (generate-report lines 119–130). -/
structure DataSummary where
  period : String
  periodDays : Int
  startMs : Int
  endMs : Int
  totalMedications : Nat
  expectedDoses : Int
  takenDoses : Nat
  missedDoses : Int
  adherenceRate : Nat
  medicationStats : List MedicationStat
  deriving Repr, DecidableEq

/-- The statistics stage of generate-report (lines 82–130) applied to the
already-fetched in-window logs. -/
def dataSummary (period : String) (meds : List Medication)
    (logs : List MedicationLog) (startMs endMs : Int) : DataSummary :=
  let pd := periodDaysOf startMs endMs
  let expected := expectedDosesOf meds pd
  let taken := takenCount logs
  { period := period
    periodDays := pd
    startMs := startMs
    endMs := endMs
    totalMedications := meds.length
    expectedDoses := expected
    takenDoses := taken
    missedDoses := expected - (taken : Int)
    adherenceRate := adherenceRateOf taken expected
    medicationStats := medicationStats meds logs pd }

/-- generate-report from the fetched rows to the numeric summary: the log
query's window filter followed by the statistics stage. -/
def generateReportData (period : String) (meds : List Medication)
    (allLogs : List MedicationLog) (startMs endMs : Int) : DataSummary :=
  dataSummary period meds (logsInWindow allLogs startMs endMs) startMs endMs

/-! ### The narrative (AI) stage of generate-report, lines 133–206. -/

/-- `message` field of an AI choice: `content` may be absent. -/
structure AiMessage where
  content : Option String
  deriving Repr, DecidableEq

/-- One element of `choices`: `message` may be absent. -/
structure AiChoice where
  message : Option AiMessage
  deriving Repr, DecidableEq

/-- Parsed 2xx response body of the AI gateway; `choices` may be absent. -/
structure AiBody where
  choices : Option (List AiChoice)
  deriving Repr, DecidableEq

/-- `aiData.choices?.[0]?.message?.content` (generate-report line 195). -/
def aiContent (body : AiBody) : Option String :=
  (((body.choices.bind (fun cs => cs.head?)).bind
    (fun c => c.message)).bind (fun m => m.content))

/-- The fallback insight text of generate-report line 195. -/
def fallbackInsight : String := "Unable to generate insights at this time."

/-- `aiData.choices?.[0]?.message?.content || 'Unable to generate insights at this time.'`:
JavaScript `||` also replaces an empty string. -/
def aiInsightsOf (body : AiBody) : String :=
  match aiContent body with
  | some s => if s = "" then fallbackInsight else s
  | none => fallbackInsight

/-- Outcome of the environment/AI-gateway interaction seen by the handler:
the `LOVABLE_API_KEY` may be missing (line 134), the gateway may answer a
non-2xx status (line 176), or a 2xx response with a parsed body. -/
inductive AiOutcome where
  | noApiKey : AiOutcome
  | httpError (status : Nat) : AiOutcome
  | ok (body : AiBody) : AiOutcome
  deriving Repr, DecidableEq

/-- An HTTP response of the handler: either the success payload
(lines 197–206: the data summary, the raw logs and the insight text) or a
JSON error response with a status (`throw`s reach the catch block at
lines 208–216 and become status-500 responses carrying the error
message). -/
inductive HandlerResult where
  | success (data : DataSummary) (logs : List MedicationLog) (aiInsights : String) :
      HandlerResult
  | errorResponse (status : Nat) (message : String) : HandlerResult
  deriving Repr, DecidableEq

/-- generate-report after authentication and fetching (lines 58–216):
statistics over the fetched rows, then the narrative stage; 429 and 402
gateway answers return early error responses (lines 176–188), any other
gateway failure and a missing API key throw and surface as 500. -/
def generateReportHandler (period : String) (meds : List Medication)
    (allLogs : List MedicationLog) (startMs endMs : Int) (ai : AiOutcome) :
    HandlerResult :=
  let summary := generateReportData period meds allLogs startMs endMs
  match ai with
  | .noApiKey => .errorResponse 500 "LOVABLE_API_KEY is not configured"
  | .httpError status =>
      if status = 429 then
        .errorResponse 429 "Rate limit exceeded. Please try again later."
      else if status = 402 then
        .errorResponse 402 "Payment required. Please add credits to continue."
      else
        .errorResponse 500 "Failed to generate AI insights"
  | .ok body =>
      .success summary (logsInWindow allLogs startMs endMs) (aiInsightsOf body)

/-! ### The doctor-access report generator (migration file, lines 241–300). -/

/-- `medications?.filter(m => m.medication_type === 'prescription')`
(doctor report line 252). -/
def trackableMedications (meds : List Medication) : List Medication :=
  meds.filter (fun m => m.medication_type == "prescription")

/-- `logs?.filter(log => log.status === 'taken' && trackableMedications.some(med => med.id === log.medication_id)).length`
(doctor report lines 259–262). -/
def doctorTakenDoses (meds : List Medication) (logs : List MedicationLog) : Nat :=
  (logs.filter (fun l =>
    l.status == "taken" &&
      (trackableMedications meds).any (fun m => m.id == l.medication_id))).length

/-- The numeric fields of the doctor-access report payload. -/
structure DoctorSummary where
  periodDays : Int
  totalMedications : Nat
  expectedDoses : Int
  takenDoses : Nat
  adherenceRate : Nat
  deriving Repr, DecidableEq

/-- Statistics stage of the doctor-access report (lines 249–265) applied to
the fetched in-window logs. -/
def doctorSummary (meds : List Medication) (logs : List MedicationLog)
    (startMs endMs : Int) : DoctorSummary :=
  let pd := periodDaysOf startMs endMs
  let expected := expectedDosesOf (trackableMedications meds) pd
  let taken := doctorTakenDoses meds logs
  { periodDays := pd
    totalMedications := meds.length
    expectedDoses := expected
    takenDoses := taken
    adherenceRate := adherenceRateOf taken expected }

/-! ### Spec-side definitions, for refinement comparisons only. -/

/-- Modelled from the spec (§4.1 Interval Overlap Resolver), for comparison
with the code: effective interval `[activeFrom ?? epoch, activeUntil ?? window.end]`,
intersected with the window; `0` on no overlap, else the inclusive day
count `floor((overlapEnd - overlapStart) in days) + 1`. -/
def overlapDaysSpec (m : Medication) (startMs endMs : Int) : Int :=
  let effStart := m.start_date.getD 0
  let effEnd := m.end_date.getD endMs
  let overlapStart := max effStart startMs
  let overlapEnd := min effEnd endMs
  if overlapStart > overlapEnd then 0
  else (overlapEnd - overlapStart).ediv msPerDay + 1

/-- Modelled from the spec (§4.2), for comparison with the code: expected
doses of a `Prescription` medication are `max(1, slotsCount) × overlapDays`. -/
def specExpectedPrescription (m : Medication) (startMs endMs : Int) : Int :=
  (max 1 m.time_of_day.length : Nat) * overlapDaysSpec m startMs endMs

/-- Modelled from the spec (§4.4 step 3), for comparison with the code: the
per-medication adherence figure is `null` unless the medication is a
prescription. -/
def specAdherenceFigure (medicationType : String) (taken : Nat) (expected : Int) :
    Option Nat :=
  if medicationType = "prescription" then some (adherenceRateOf taken expected)
  else none

/-- Modelled from the spec (C6), for comparison with the code:
`periodDays = floor((end - start) in days) + 1`. -/
def specPeriodDaysFloor (startMs endMs : Int) : Int :=
  (endMs - startMs).ediv msPerDay + 1

/-- Whether a handler result is a success response carrying a summary. -/
def HandlerResult.isSuccess : HandlerResult → Bool
  | .success .. => true
  | .errorResponse .. => false

/-! ### Concrete test fixtures. -/

/-- A medication row with the given id, slots, classification and active
interval; the display columns are fixed. -/
def mkMed (id : String) (slots : List String) (mtype : String)
    (sd ed : Option Int) : Medication :=
  { id := id, name := id, dosage := "1 tablet", frequency := "daily",
    time_of_day := slots, medication_type := mtype,
    start_date := sd, end_date := ed }

/-- A log row with the given id, medication, instant and status. -/
def mkLog (id mid : String) (t : Int) (status : String) : MedicationLog :=
  { id := id, medication_id := mid, taken_at := t,
    scheduled_time := "Morning (8:00 AM)", status := status }

/-- A prescription with one daily slot and no explicit interval. -/
def medPrescription : Medication :=
  mkMed "p1" ["Morning (8:00 AM)"] "prescription" none none

/-- A one-time medication with one slot. -/
def medOneTime : Medication :=
  mkMed "o1" ["Morning (8:00 AM)"] "one-time" none none

/-- An as-needed medication with one slot. -/
def medAsNeeded : Medication :=
  mkMed "a1" ["Morning (8:00 AM)"] "as-needed" none none

/-- A prescription active only days 4–6 of the epoch (3 calendar days of a
7-day window starting at the epoch). -/
def medPartialInterval : Medication :=
  mkMed "c1" ["Morning (8:00 AM)"] "prescription"
    (some 345600000) (some 518400000)

/-- A taken log whose medication id matches no medication in any fixture
set. -/
def ghostLog : MedicationLog := mkLog "g1" "ghost" 0 "taken"

/-! ### Helper lemmas. -/

/-- The natural-number computation `jsRoundPct` is round-half-up of
`taken*100/expected` as a rational. -/
lemma jsRoundPct_round (t e : ℕ) (he : 0 < e) :
    (round ((t * 100 : ℚ) / (e : ℚ))).toNat = jsRoundPct t e := by
  have he' : (e : ℚ) ≠ 0 := Nat.cast_ne_zero.mpr he.ne'
  have h1 : (t * 100 : ℚ) / (e : ℚ) + 1 / 2
      = ((2 * (t * 100) + e : ℕ) : ℚ) / ((2 * e : ℕ) : ℚ) := by
    push_cast
    field_simp
    ring
  rw [round_eq, h1, Rat.floor_natCast_div_natCast]
  simp only [jsRoundPct]
  exact_mod_cast rfl

/-- `adherenceRateOf` as the claims state it: the round-half-up percentage
when the expected count is positive, `0` otherwise. -/
lemma adherenceRateOf_eq (t : ℕ) (e : ℤ) :
    adherenceRateOf t e =
      if 0 < e then (round ((t * 100 : ℚ) / (e : ℚ))).toNat else 0 := by
  by_cases he : 0 < e
  · have h2 : ((e.toNat : ℕ) : ℚ) = (e : ℚ) := by
      exact_mod_cast Int.toNat_of_nonneg he.le
    rw [adherenceRateOf, if_pos he, if_pos he, ← h2,
      jsRoundPct_round t e.toNat (by omega)]
  · rw [adherenceRateOf, if_neg he, if_neg he]

/-- Folding `+ f m` over a list starting from `acc` is `acc` plus the sum. -/
lemma foldl_add_map_sum (f : Medication → Int) (ms : List Medication) (acc : Int) :
    ms.foldl (fun a m => a + f m) acc = acc + (ms.map f).sum := by
  induction ms generalizing acc with
  | nil => simp
  | cons m rest ih => simp [ih, add_assoc]

/-- The `expectedDoses` loop equals the sum over the medication list. -/
lemma expectedDosesOf_eq_sum (ms : List Medication) (pd : Int) :
    expectedDosesOf ms pd = (ms.map (fun m => (slotCount m : Int) * pd)).sum := by
  rw [expectedDosesOf, foldl_add_map_sum]
  simp

/-- String `==` is symmetric. -/
lemma strBeq_comm (a b : String) : (a == b) = (b == a) := by
  by_cases h : a = b
  · subst h; rfl
  · simp [h, Ne.symm h]

/-- Counting a filtered disjunction splits when the two disjuncts never
hold together. -/
lemma length_filter_or_disjoint (logs : List MedicationLog)
    (r p q : MedicationLog → Bool)
    (hd : ∀ l, p l = true → q l = true → False) :
    (logs.filter (fun l => r l && (p l || q l))).length
      = (logs.filter (fun l => r l && p l)).length
        + (logs.filter (fun l => r l && q l)).length := by
  induction logs with
  | nil => simp
  | cons l ls ih =>
    by_cases hp : p l
    · have hq : q l = false := by
        cases hqv : q l
        · rfl
        · exact absurd (hd l hp hqv) (fun h => h)
      by_cases hr : r l <;>
        simp [List.filter_cons, hr, hp, hq, ih, Nat.add_right_comm]
    · by_cases hr : r l <;> by_cases hq : q l <;>
        simp [List.filter_cons, hr, hp, hq, ih, Nat.add_assoc]

/-- With pairwise-distinct medication ids, the count of taken logs matching
any medication of the list equals the sum of the per-medication taken
counts. -/
lemma length_filter_any_eq_sum (ms : List Medication) (logs : List MedicationLog)
    (h : (ms.map (·.id)).Nodup) :
    (logs.filter (fun l =>
        l.status == "taken" && ms.any (fun m => m.id == l.medication_id))).length
      = (ms.map (fun m => takenCount (medLogs logs m.id))).sum := by
  induction ms with
  | nil => simp
  | cons m rest ih =>
    have hnotin : m.id ∉ rest.map (·.id) := (List.nodup_cons.mp h).1
    have hrest : (rest.map (·.id)).Nodup := (List.nodup_cons.mp h).2
    have hsplit := length_filter_or_disjoint logs
      (fun l => l.status == "taken")
      (fun l => m.id == l.medication_id)
      (fun l => rest.any (fun m' => m'.id == l.medication_id))
      (by
        intro l hp hq
        have hid : m.id = l.medication_id := by simpa using hp
        obtain ⟨m', hm', hid'⟩ := by simpa using hq
        exact hnotin (by
          simp only [List.mem_map]
          exact ⟨m', hm', by rw [hid', ← hid]⟩))
    have hcond : ∀ l : MedicationLog,
        (l.status == "taken" && (m :: rest).any (fun m' => m'.id == l.medication_id))
          = (l.status == "taken" &&
              ((fun l => m.id == l.medication_id) l ||
                (fun l => rest.any (fun m' => m'.id == l.medication_id)) l)) := by
      intro l
      simp [List.any_cons]
    have hhead : (logs.filter (fun l =>
        l.status == "taken" && (m.id == l.medication_id))).length
          = takenCount (medLogs logs m.id) := by
      rw [takenCount, medLogs, List.filter_filter]
      congr 1
      refine List.filter_congr (fun l _ => ?_)
      rw [strBeq_comm m.id l.medication_id]
    calc (logs.filter (fun l =>
          l.status == "taken" &&
            (m :: rest).any (fun m' => m'.id == l.medication_id))).length
        = (logs.filter (fun l =>
            l.status == "taken" &&
              ((fun l => m.id == l.medication_id) l ||
                (fun l => rest.any (fun m' => m'.id == l.medication_id)) l))).length := by
          exact congrArg List.length (List.filter_congr (fun l _ => hcond l))
      _ = (logs.filter (fun l =>
            l.status == "taken" && (m.id == l.medication_id))).length
          + (logs.filter (fun l =>
            l.status == "taken" &&
              rest.any (fun m' => m'.id == l.medication_id))).length := hsplit
      _ = takenCount (medLogs logs m.id)
          + ((rest.map (fun m => takenCount (medLogs logs m.id))).sum) := by
          rw [hhead, ih hrest]
      _ = ((m :: rest).map (fun m => takenCount (medLogs logs m.id))).sum := by
          simp

end PillPal

namespace PillPal

/-- Scratch check: 7-day window, 2 slots, 10 taken logs. -/
example :
    (dataSummary "weekly"
      [{ id := "m1", name := "A", dosage := "1mg", frequency := "d",
         time_of_day := ["Morning", "Evening"], medication_type := "prescription",
         start_date := none, end_date := none }]
      (List.range 10 |>.map (fun i =>
        { id := toString i, medication_id := "m1", taken_at := 0,
          scheduled_time := "Morning", status := "taken" }))
      0 518400000).expectedDoses = 14 := by decide

example :
    (dataSummary "weekly"
      [{ id := "m1", name := "A", dosage := "1mg", frequency := "d",
         time_of_day := ["Morning", "Evening"], medication_type := "prescription",
         start_date := none, end_date := none }]
      (List.range 10 |>.map (fun i =>
        { id := toString i, medication_id := "m1", taken_at := 0,
          scheduled_time := "Morning", status := "taken" }))
      0 518400000).adherenceRate = 71 := by decide

/-! ### Claim C9. -/

/-- Claim C9: `missedDoses` always equals exactly
`expectedDoses − takenDoses`, with no clamping at zero; with one expected
dose and two in-window taken logs for the same slot the reported
`missedDoses` is `-1`. -/
theorem missedDoses_eq_expected_sub_taken (period : String)
    (meds : List Medication) (allLogs : List MedicationLog)
    (startMs endMs : Int) :
    (generateReportData period meds allLogs startMs endMs).missedDoses
        = (generateReportData period meds allLogs startMs endMs).expectedDoses
          - ((generateReportData period meds allLogs startMs endMs).takenDoses : Int)
      ∧ (generateReportData "weekly" [medPrescription]
          [mkLog "l1" "p1" 0 "taken", mkLog "l2" "p1" 0 "taken"]
          0 0).missedDoses = -1 :=
  ⟨rfl, by decide⟩

/-! ### Claim C10. -/

/-- Claim C10: a 2xx narrative response whose body lacks
`choices[0].message.content` still yields a success response, with the
insight text set to the fixed fallback string. -/
theorem missing_ai_content_falls_back (period : String)
    (meds : List Medication) (allLogs : List MedicationLog)
    (startMs endMs : Int) (body : AiBody) (h : aiContent body = none) :
    generateReportHandler period meds allLogs startMs endMs (.ok body)
      = .success (generateReportData period meds allLogs startMs endMs)
          (logsInWindow allLogs startMs endMs)
          "Unable to generate insights at this time." := by
  simp [generateReportHandler, aiInsightsOf, h, fallbackInsight]

/-- Claim C10 witness: a body with no `choices` at all. -/
theorem missing_ai_content_falls_back_witness :
    aiContent ⟨none⟩ = none ∧
      generateReportHandler "weekly" [] [] 0 0 (.ok ⟨none⟩)
        = .success (generateReportData "weekly" [] [] 0 0)
            (logsInWindow [] 0 0)
            "Unable to generate insights at this time." :=
  ⟨rfl, missing_ai_content_falls_back "weekly" [] [] 0 0 ⟨none⟩ rfl⟩

/-! ### Claim C5. -/

/-- Claim C5 counterexample: with valid inputs and a rate-limited (429)
narrative call, the handler returns a bare 429 error response and no
numeric summary at all, contradicting the claim that the summary is still
returned. -/
theorem narrative_429_drops_summary_cex :
    (generateReportHandler "weekly" [medPrescription]
        [mkLog "l1" "p1" 0 "taken"] 0 518400000 (.httpError 429)).isSuccess
        = false
      ∧ generateReportHandler "weekly" [medPrescription]
          [mkLog "l1" "p1" 0 "taken"] 0 518400000 (.httpError 429)
        = .errorResponse 429 "Rate limit exceeded. Please try again later." := by
  decide

/-- Claim C5 (amended): every narrative-stage failure aborts the whole
request without the numeric summary: 429 becomes an HTTP 429 error
response, 402 an HTTP 402, any other non-2xx status an HTTP 500, and a
missing `LOVABLE_API_KEY` an HTTP 500. -/
theorem narrative_failure_aborts_request (period : String)
    (meds : List Medication) (allLogs : List MedicationLog)
    (startMs endMs : Int) (st : Nat) (h1 : st ≠ 429) (h2 : st ≠ 402) :
    generateReportHandler period meds allLogs startMs endMs (.httpError 429)
        = .errorResponse 429 "Rate limit exceeded. Please try again later."
      ∧ generateReportHandler period meds allLogs startMs endMs (.httpError 402)
        = .errorResponse 402 "Payment required. Please add credits to continue."
      ∧ generateReportHandler period meds allLogs startMs endMs (.httpError st)
        = .errorResponse 500 "Failed to generate AI insights"
      ∧ generateReportHandler period meds allLogs startMs endMs .noApiKey
        = .errorResponse 500 "LOVABLE_API_KEY is not configured" := by
  refine ⟨rfl, rfl, ?_, rfl⟩
  simp [generateReportHandler, h1, h2]

/-- Claim C5 (amended) witness: a concrete window and a 503 gateway
status. -/
theorem narrative_failure_aborts_request_witness :
    generateReportHandler "weekly" [] [] 0 0 (.httpError 429)
        = .errorResponse 429 "Rate limit exceeded. Please try again later."
      ∧ generateReportHandler "weekly" [] [] 0 0 (.httpError 402)
        = .errorResponse 402 "Payment required. Please add credits to continue."
      ∧ generateReportHandler "weekly" [] [] 0 0 (.httpError 503)
        = .errorResponse 500 "Failed to generate AI insights"
      ∧ generateReportHandler "weekly" [] [] 0 0 .noApiKey
        = .errorResponse 500 "LOVABLE_API_KEY is not configured" :=
  narrative_failure_aborts_request "weekly" [] [] 0 0 503
    (by decide) (by decide)

/-! ### Claim C7. -/

/-- Claim C7 counterexample: for the malformed window
`start = 86400000 > end = 0` the handler, far from rejecting with a
`ValidationError`, returns a success response with a computed summary
(`periodDays = 0`, all totals `0`). -/
theorem malformed_window_accepted_cex :
    (0 : Int) < 86400000
      ∧ (generateReportHandler "weekly" [] [] 86400000 0
          (.ok ⟨none⟩)).isSuccess = true
      ∧ generateReportHandler "weekly" [] [] 86400000 0 (.ok ⟨none⟩)
        = .success
            { period := "weekly", periodDays := 0, startMs := 86400000,
              endMs := 0, totalMedications := 0, expectedDoses := 0,
              takenDoses := 0, missedDoses := 0, adherenceRate := 0,
              medicationStats := [] }
            [] "Unable to generate insights at this time." := by
  decide

/-- Claim C7 (amended): generate-report performs no window validation: for
every window with `start > end` (and a successful narrative call) it still
returns a success response with the summary computed by the usual
formulas, whose `periodDays` is then at most `1`. -/
theorem no_window_validation (period : String) (meds : List Medication)
    (allLogs : List MedicationLog) (startMs endMs : Int) (body : AiBody)
    (h : endMs < startMs) :
    generateReportHandler period meds allLogs startMs endMs (.ok body)
        = .success (generateReportData period meds allLogs startMs endMs)
            (logsInWindow allLogs startMs endMs) (aiInsightsOf body)
      ∧ (generateReportData period meds allLogs startMs endMs).periodDays ≤ 1 := by
  refine ⟨rfl, ?_⟩
  show periodDaysOf startMs endMs ≤ 1
  unfold periodDaysOf jsCeilDiv msPerDay
  have h0 : 0 ≤ (-(endMs - startMs)).ediv (86400000 : Int) :=
    Int.ediv_nonneg (by omega) (by norm_num)
  omega

/-- Claim C7 (amended) witness: the malformed window
`start = 86400000 > end = 0`, empty inputs. -/
theorem no_window_validation_witness :
    (0 : Int) < 86400000
      ∧ (generateReportHandler "weekly" [] [] 86400000 0 (.ok ⟨none⟩)
          = .success (generateReportData "weekly" [] [] 86400000 0)
              (logsInWindow [] 86400000 0) (aiInsightsOf ⟨none⟩)
        ∧ (generateReportData "weekly" [] [] 86400000 0).periodDays ≤ 1) :=
  ⟨by decide, no_window_validation "weekly" [] [] 86400000 0 ⟨none⟩ (by decide)⟩

/-! ### Claim C6. -/

/-- Claim C6 counterexample: for the one-calendar-day window
`[0, 86399999]` (midnight to 23:59:59.999) the code's
`Math.ceil`-based `periodDays` is `2`, while the claimed
`floor((end − start) in days) + 1` is `1`. -/
theorem periodDays_not_floor_cex :
    periodDaysOf 0 86399999 = 2
      ∧ specPeriodDaysFloor 0 86399999 = 1
      ∧ (2 : Int) ≠ 1 := by
  decide

/-- Claim C6 (amended): `periodDays` is
`ceil((end − start) in days) + 1`; it coincides with the claimed
`floor((end − start) in days) + 1` exactly when the window bounds are a
whole number of days apart (as in the midnight-aligned
`2024-01-01..2024-01-07` window, where both give `7`). -/
theorem periodDays_ceil_eq_floor_on_whole_days (startMs endMs : Int)
    (h : msPerDay ∣ (endMs - startMs)) :
    periodDaysOf startMs endMs = specPeriodDaysFloor startMs endMs := by
  obtain ⟨k, hk⟩ := h
  have hne : (msPerDay : Int) ≠ 0 := by decide
  have e1 : (-(msPerDay * k)).ediv msPerDay = -k := by
    have hneg : -(msPerDay * k) = msPerDay * (-k) := by ring
    rw [hneg]
    exact Int.mul_ediv_cancel_left _ hne
  have e2 : (msPerDay * k).ediv msPerDay = k := Int.mul_ediv_cancel_left _ hne
  rw [periodDaysOf, specPeriodDaysFloor, hk, jsCeilDiv, e1, e2]
  ring

/-- Claim C6 (amended) witness: the UTC-midnight instants of 2024-01-01
and 2024-01-07 are a whole number of days apart, the two formulas agree,
and both give `7`. -/
theorem periodDays_whole_days_witness :
    msPerDay ∣ ((1704585600000 : Int) - 1704067200000)
      ∧ periodDaysOf 1704067200000 1704585600000
        = specPeriodDaysFloor 1704067200000 1704585600000
      ∧ periodDaysOf 1704067200000 1704585600000 = 7 :=
  ⟨⟨6, by decide⟩,
    periodDays_ceil_eq_floor_on_whole_days 1704067200000 1704585600000
      ⟨6, by decide⟩,
    by decide⟩

/-! ### Claim C1. -/

/-- Claim C1 counterexample: a prescription active only days 4–6 of the
7-day window `[0, 518400000]` with 1 slot/day has reported
`expected = 7` — the full window — while the claimed
`max(1, slotsCount) × overlapDays` is `3`. -/
theorem prescription_overlap_ignored_cex :
    medPartialInterval.medication_type = "prescription"
      ∧ ((generateReportData "weekly" [medPartialInterval] []
          0 518400000).medicationStats.map (fun st => st.expected)) = [7]
      ∧ specExpectedPrescription medPartialInterval 0 518400000 = 3
      ∧ (7 : Int) ≠ 3 := by
  decide

/-- Claim C1 (amended): every medication's reported expected dose count is
`max(1, slotsCount) × periodDays` of the whole window; the medication's
active interval (`start_date`/`end_date`) is ignored, so overriding it
arbitrarily never changes the expected counts. -/
theorem perMed_expected_ignores_interval (period : String)
    (ms : List Medication) (allLogs : List MedicationLog)
    (startMs endMs : Int) (f g : Medication → Option Int) :
    ((generateReportData period
        (ms.map (fun m => { m with start_date := f m, end_date := g m }))
        allLogs startMs endMs).medicationStats.map (fun st => st.expected))
      = ms.map (fun m => (slotCount m : Int) * periodDaysOf startMs endMs) := by
  simp only [generateReportData, dataSummary, medicationStats, List.map_map]
  refine List.map_congr_left (fun m _ => ?_)
  rfl

/-! ### Claim C3. -/

/-- Claim C3 counterexample: a one-time medication with 1 slot in the
7-day window `[0, 518400000]` has reported `expected = 7`, not the claimed
`1`. -/
theorem oneTime_expected_not_one_cex :
    medOneTime.medication_type = "one-time"
      ∧ ((generateReportData "weekly" [medOneTime] []
          0 518400000).medicationStats.map (fun st => st.expected)) = [7]
      ∧ ((generateReportData "weekly" [medOneTime] []
          0 518400000).medicationStats.map (fun st => st.expected)) ≠ [1] := by
  decide

/-- Claim C3 (amended): the reported expected dose count of every
medication — one-time medications included — is
`max(1, slotsCount) × periodDays`; the classification is ignored, so
overriding `medication_type` arbitrarily never changes the expected
counts. -/
theorem perMed_expected_ignores_classification (period : String)
    (ms : List Medication) (allLogs : List MedicationLog)
    (startMs endMs : Int) (f : Medication → String) :
    ((generateReportData period
        (ms.map (fun m => { m with medication_type := f m }))
        allLogs startMs endMs).medicationStats.map (fun st => st.expected))
      = ms.map (fun m => (slotCount m : Int) * periodDaysOf startMs endMs) := by
  simp only [generateReportData, dataSummary, medicationStats, List.map_map]
  refine List.map_congr_left (fun m _ => ?_)
  rfl

/-! ### Claim C4. -/

/-- Claim C4 counterexample: an as-needed medication with 5 in-window
taken logs and 7 expected slots-days gets the numeric adherence figure
`71` computed by the same rounded formula as prescriptions, where the
claim demands a null figure. -/
theorem nonPrescription_adherence_not_null_cex :
    medAsNeeded.medication_type = "as-needed"
      ∧ ((generateReportData "weekly" [medAsNeeded]
          [mkLog "l1" "a1" 0 "taken", mkLog "l2" "a1" 0 "taken",
            mkLog "l3" "a1" 0 "taken", mkLog "l4" "a1" 0 "taken",
            mkLog "l5" "a1" 0 "taken"]
          0 518400000).medicationStats.map (fun st => st.adherence)) = [71]
      ∧ specAdherenceFigure "as-needed" 5 7 = none := by
  decide

/-- Claim C4 (amended): the per-medication adherence figure is a number
for every medication regardless of classification: the round-half-up of
`taken/expected × 100` when `expected > 0`, and `0` otherwise. -/
theorem perMed_adherence_formula_all_classifications (period : String)
    (ms : List Medication) (allLogs : List MedicationLog)
    (startMs endMs : Int) :
    ((generateReportData period ms allLogs
        startMs endMs).medicationStats.map (fun st => st.adherence))
      = ms.map (fun m =>
          if 0 < (slotCount m : Int) * periodDaysOf startMs endMs then
            (round ((takenCount (medLogs (logsInWindow allLogs startMs endMs)
                m.id) * 100 : ℚ)
              / (((slotCount m : Int) * periodDaysOf startMs endMs : Int) : ℚ))).toNat
          else 0) := by
  simp only [generateReportData, dataSummary, medicationStats, List.map_map]
  refine List.map_congr_left (fun m _ => ?_)
  exact adherenceRateOf_eq _ _

/-! ### Claim C8. -/

/-- Claim C8 counterexample: an in-window taken log for a medication id
not in the supplied medication set is counted in the aggregate
`takenDoses` (which becomes `1`, not `0`) even though it appears in no
per-medication count. -/
theorem ghost_log_counted_in_totals_cex :
    ghostLog.medication_id ∉ [medPrescription].map (fun m => m.id)
      ∧ (generateReportData "weekly" [medPrescription] [ghostLog]
          0 518400000).takenDoses = 1
      ∧ ((generateReportData "weekly" [medPrescription] [ghostLog]
          0 518400000).medicationStats.map (fun st => st.taken)) = [0] := by
  decide

/-- Claim C8 (amended): an in-window taken log whose medication id is not
in the supplied medication set is excluded from every per-medication count,
but generate-report still counts it in the aggregate `takenDoses` (adding
one per such log); only the doctor-access report excludes it from its
`takenDoses`. -/
theorem unknown_medication_log_in_totals (period : String)
    (ms : List Medication) (logs : List MedicationLog) (l : MedicationLog)
    (startMs endMs : Int) (h1 : l.status = "taken")
    (h2 : startMs ≤ l.taken_at) (h3 : l.taken_at ≤ endMs)
    (h4 : l.medication_id ∉ ms.map (fun m => m.id)) :
    (generateReportData period ms (l :: logs) startMs endMs).takenDoses
        = (generateReportData period ms logs startMs endMs).takenDoses + 1
      ∧ (generateReportData period ms (l :: logs) startMs endMs).medicationStats
        = (generateReportData period ms logs startMs endMs).medicationStats
      ∧ doctorTakenDoses ms (l :: logs) = doctorTakenDoses ms logs := by
  have hwin : logsInWindow (l :: logs) startMs endMs
      = l :: logsInWindow logs startMs endMs := by
    simp [logsInWindow, List.filter_cons, h2, h3]
  have hne : ∀ m ∈ ms, l.medication_id ≠ m.id := by
    intro m hm hEq
    exact h4 (List.mem_map.mpr ⟨m, hm, hEq.symm⟩)
  refine ⟨?_, ?_, ?_⟩
  · show takenCount (logsInWindow (l :: logs) startMs endMs)
      = takenCount (logsInWindow logs startMs endMs) + 1
    rw [hwin, takenCount, takenCount, List.filter_cons]
    simp [h1]
  · show medicationStats ms (logsInWindow (l :: logs) startMs endMs) _
      = medicationStats ms (logsInWindow logs startMs endMs) _
    rw [hwin, medicationStats, medicationStats]
    refine List.map_congr_left (fun m hm => ?_)
    have hmed : medLogs (l :: logsInWindow logs startMs endMs) m.id
        = medLogs (logsInWindow logs startMs endMs) m.id := by
      simp [medLogs, List.filter_cons, hne m hm]
    rw [hmed]
  · have hany : ((trackableMedications ms).any
        (fun m => m.id == l.medication_id)) = false := by
      rw [List.any_eq_false]
      intro m hm
      have hms : m ∈ ms := List.mem_of_mem_filter hm
      simp [Ne.symm (hne m hms)]
    rw [doctorTakenDoses, doctorTakenDoses, List.filter_cons]
    simp [hany]

/-- Claim C8 (amended) witness: the ghost log over a single-prescription
set in the 7-day window. -/
theorem unknown_medication_log_in_totals_witness :
    (ghostLog.status = "taken"
        ∧ (0 : Int) ≤ ghostLog.taken_at
        ∧ ghostLog.taken_at ≤ 518400000
        ∧ ghostLog.medication_id ∉ [medPrescription].map (fun m => m.id))
      ∧ ((generateReportData "weekly" [medPrescription] (ghostLog :: [])
            0 518400000).takenDoses
          = (generateReportData "weekly" [medPrescription] []
              0 518400000).takenDoses + 1
        ∧ (generateReportData "weekly" [medPrescription] (ghostLog :: [])
            0 518400000).medicationStats
          = (generateReportData "weekly" [medPrescription] []
              0 518400000).medicationStats
        ∧ doctorTakenDoses [medPrescription] (ghostLog :: [])
          = doctorTakenDoses [medPrescription] []) :=
  ⟨⟨by decide, by decide, by decide, by decide⟩,
    unknown_medication_log_in_totals "weekly" [medPrescription] [] ghostLog
      0 518400000 (by decide) (by decide) (by decide) (by decide)⟩

/-! ### Claim C2. -/

/-- Claim C2 counterexample: an as-needed medication with one in-window
taken log contributes in full to the aggregate totals of generate-report:
`expectedDoses = 7` and `takenDoses = 1`, where the claimed
prescriptions-only sums would both be `0`. -/
theorem aggregate_totals_include_all_classes_cex :
    medAsNeeded.medication_type = "as-needed"
      ∧ (generateReportData "weekly" [medAsNeeded]
          [mkLog "l1" "a1" 0 "taken"] 0 518400000).expectedDoses = 7
      ∧ (generateReportData "weekly" [medAsNeeded]
          [mkLog "l1" "a1" 0 "taken"] 0 518400000).takenDoses = 1 := by
  decide

/-- Claim C2 (amended): only the doctor-access report restricts aggregate
totals to prescriptions: its `expectedDoses` is the sum of per-medication
expected over `trackableMedications` (the prescription-classified ones),
its `takenDoses` is the sum of the per-medication taken counts over those
prescriptions, its `adherenceRate` is the rounded percentage when
`expectedDoses > 0` and `0` otherwise, and a taken log of a medication
outside the prescription set never contributes to its `takenDoses`. -/
theorem doctor_totals_prescriptions_only (ms : List Medication)
    (logs : List MedicationLog) (startMs endMs : Int) (l : MedicationLog)
    (h : (ms.map (fun m => m.id)).Nodup)
    (hl : l.medication_id ∉ (trackableMedications ms).map (fun m => m.id)) :
    (doctorSummary ms logs startMs endMs).expectedDoses
        = ((trackableMedications ms).map
            (fun m => (slotCount m : Int) * periodDaysOf startMs endMs)).sum
      ∧ (doctorSummary ms logs startMs endMs).takenDoses
        = ((trackableMedications ms).map
            (fun m => takenCount (medLogs logs m.id))).sum
      ∧ (doctorSummary ms logs startMs endMs).adherenceRate
        = (if 0 < (doctorSummary ms logs startMs endMs).expectedDoses then
            (round (((doctorSummary ms logs startMs endMs).takenDoses
                * 100 : ℚ)
              / ((doctorSummary ms logs startMs endMs).expectedDoses : ℚ))).toNat
          else 0)
      ∧ doctorTakenDoses ms (l :: logs) = doctorTakenDoses ms logs := by
  have htr : ((trackableMedications ms).map (fun m => m.id)).Nodup :=
    h.sublist ((List.filter_sublist ms).map (fun m => m.id))
  refine ⟨?_, ?_, ?_, ?_⟩
  · exact expectedDosesOf_eq_sum _ _
  · exact length_filter_any_eq_sum (trackableMedications ms) logs htr
  · exact adherenceRateOf_eq _ _
  · have hne : ∀ m ∈ trackableMedications ms, l.medication_id ≠ m.id := by
      intro m hm hEq
      exact hl (List.mem_map.mpr ⟨m, hm, hEq.symm⟩)
    have hany : ((trackableMedications ms).any
        (fun m => m.id == l.medication_id)) = false := by
      rw [List.any_eq_false]
      intro m hm
      simp [Ne.symm (hne m hm)]
    rw [doctorTakenDoses, doctorTakenDoses, List.filter_cons]
    simp [hany]

/-- Claim C2 (amended) witness: one prescription and one as-needed
medication, each with one in-window taken log, plus the ghost log. -/
theorem doctor_totals_prescriptions_only_witness :
    (([medPrescription, medAsNeeded].map (fun m => m.id)).Nodup
        ∧ ghostLog.medication_id
          ∉ (trackableMedications [medPrescription, medAsNeeded]).map
              (fun m => m.id))
      ∧ ((doctorSummary [medPrescription, medAsNeeded]
            [mkLog "l1" "p1" 0 "taken", mkLog "l2" "a1" 0 "taken"]
            0 518400000).expectedDoses
          = ((trackableMedications [medPrescription, medAsNeeded]).map
              (fun m => (slotCount m : Int) * periodDaysOf 0 518400000)).sum
        ∧ (doctorSummary [medPrescription, medAsNeeded]
            [mkLog "l1" "p1" 0 "taken", mkLog "l2" "a1" 0 "taken"]
            0 518400000).takenDoses
          = ((trackableMedications [medPrescription, medAsNeeded]).map
              (fun m => takenCount (medLogs
                [mkLog "l1" "p1" 0 "taken", mkLog "l2" "a1" 0 "taken"]
                m.id))).sum
        ∧ (doctorSummary [medPrescription, medAsNeeded]
            [mkLog "l1" "p1" 0 "taken", mkLog "l2" "a1" 0 "taken"]
            0 518400000).adherenceRate
          = (if 0 < (doctorSummary [medPrescription, medAsNeeded]
                [mkLog "l1" "p1" 0 "taken", mkLog "l2" "a1" 0 "taken"]
                0 518400000).expectedDoses then
              (round (((doctorSummary [medPrescription, medAsNeeded]
                  [mkLog "l1" "p1" 0 "taken", mkLog "l2" "a1" 0 "taken"]
                  0 518400000).takenDoses * 100 : ℚ)
                / ((doctorSummary [medPrescription, medAsNeeded]
                    [mkLog "l1" "p1" 0 "taken", mkLog "l2" "a1" 0 "taken"]
                    0 518400000).expectedDoses : ℚ))).toNat
            else 0)
        ∧ doctorTakenDoses [medPrescription, medAsNeeded]
            (ghostLog :: [mkLog "l1" "p1" 0 "taken", mkLog "l2" "a1" 0 "taken"])
          = doctorTakenDoses [medPrescription, medAsNeeded]
              [mkLog "l1" "p1" 0 "taken", mkLog "l2" "a1" 0 "taken"]) :=
  ⟨⟨by decide, by decide⟩,
    doctor_totals_prescriptions_only [medPrescription, medAsNeeded]
      [mkLog "l1" "p1" 0 "taken", mkLog "l2" "a1" 0 "taken"]
      0 518400000 ghostLog (by decide) (by decide)⟩

/-- The doctor-access report of the C2 witness data evaluates as the
prescriptions-only rule predicts: one taken prescription dose out of
seven expected, 14 percent. -/
example :
    doctorSummary [medPrescription, medAsNeeded]
        [mkLog "l1" "p1" 0 "taken", mkLog "l2" "a1" 0 "taken"]
        0 518400000
      = { periodDays := 7, totalMedications := 2, expectedDoses := 7,
          takenDoses := 1, adherenceRate := 14 } := by
  decide

end PillPal
